import Mathlib

/-!
Verification of the two batch image scripts of the photo-site repository:
`generate_thumbs.py` (fixed-height thumbnail generator) and
`resize_for_web.py` (in-place web resizer with backup).

The Python code is shallowly embedded: pure geometry (width/height
arithmetic) becomes functions on `Nat`/`ℚ`; Python's float expressions
`int(height * (w / h))` and `int((h / w) * max_dimension)` are modelled by
exact rational arithmetic, whose truncation is natural-number division;
the per-file `try/except` blocks become `Except`-valued operations matched
by the catching wrapper; the driving loops of `main` become folds over an
explicit filesystem state.
-/

namespace PhotoSite

/-- Configuration constant of generate_thumbs.py: `THUMBNAIL_HEIGHT = 250`. -/
def THUMBNAIL_HEIGHT : Nat := 250

/-- Configuration constant of resize_for_web.py: `MAX_DIMENSION = 3000`. -/
def MAX_DIMENSION : Nat := 3000

/-- Configuration constant of resize_for_web.py: `QUALITY = 80`. -/
def QUALITY : Nat := 80

/-- generate_thumbs.py lines 33-34:
`aspect_ratio = img.width / img.height; new_width = int(height * aspect_ratio)`.
Python's `int` truncates the (nonnegative) float toward zero; modelled over
exact arithmetic this is `⌊height * w / h⌋`, i.e. natural-number division. -/
def newThumbWidth (height w h : Nat) : Nat := height * w / h

/-- The dimension pair `(new_width, height)` passed to `img.resize` in
generate_thumbs.py line 37. -/
def thumbDims (w h : Nat) : Nat × Nat :=
  (newThumbWidth THUMBNAIL_HEIGHT w h, THUMBNAIL_HEIGHT)

/-- Spec-side definition (from the spec's words, for comparison with
`newThumbWidth`): `new_width = round(height * original_width / original_height)`,
rounded to nearest (half rounds up); for naturals this is
`(2 * (height * w) + h) / (2 * h)`. -/
def specRoundWidth (height w h : Nat) : Nat := (2 * (height * w) + h) / (2 * h)

/-- Natural division is at most the exact rational quotient. -/
theorem natDiv_le_exact (a b : Nat) : ((a / b : Nat) : ℚ) ≤ (a : ℚ) / b := by
  rw [← Nat.floor_div_eq_div (α := ℚ) a b]
  exact Nat.floor_le (by positivity)

/-- Natural division is within one of the exact rational quotient. -/
theorem exact_lt_natDiv_add_one (a b : Nat) : (a : ℚ) / b - 1 < ((a / b : Nat) : ℚ) := by
  have h := Nat.lt_floor_add_one ((a : ℚ) / b)
  rw [Nat.floor_div_eq_div (α := ℚ) a b] at h
  linarith

/-- C1 (amended). The thumbnail width is the truncation (round-down) of
`height * w / h`, hence the thumbnail's width/height ratio matches the
original aspect ratio to within one pixel:
`250 * w / h - 1 < new_width ≤ 250 * w / h`, and the height is exactly 250. -/
theorem thumb_width_truncates_within_one_pixel (w h : Nat) (hh : 0 < h) :
    (thumbDims w h).2 = 250 ∧
    ((thumbDims w h).1 : ℚ) ≤ (250 * w : ℚ) / h ∧
    (250 * w : ℚ) / h - 1 < ((thumbDims w h).1 : ℚ) := by
  refine ⟨rfl, ?_, ?_⟩
  · have := natDiv_le_exact (250 * w) h
    simpa [thumbDims, newThumbWidth, THUMBNAIL_HEIGHT] using this
  · have := exact_lt_natDiv_add_one (250 * w) h
    simpa [thumbDims, newThumbWidth, THUMBNAIL_HEIGHT] using this

/-- Witness for `thumb_width_truncates_within_one_pixel` at a concrete
1000x500 source image: width 500, height 250. -/
theorem thumb_width_truncates_witness :
    (thumbDims 1000 500).2 = 250 ∧
    ((thumbDims 1000 500).1 : ℚ) ≤ (250 * 1000 : ℚ) / 500 ∧
    (250 * 1000 : ℚ) / 500 - 1 < ((thumbDims 1000 500).1 : ℚ) :=
  thumb_width_truncates_within_one_pixel 1000 500 (by decide)

/-- C1 counterexample. For a 5-wide, 7-tall source the code computes
`int(250 * 5 / 7) = 178`, while the claimed round-to-nearest value is
`round(1250 / 7) = round(178.57...) = 179`; the claim as stated is false. -/
theorem thumb_width_not_rounded_to_nearest :
    newThumbWidth THUMBNAIL_HEIGHT 5 7 = 178 ∧
    specRoundWidth THUMBNAIL_HEIGHT 5 7 = 179 ∧
    newThumbWidth THUMBNAIL_HEIGHT 5 7 ≠ specRoundWidth THUMBNAIL_HEIGHT 5 7 := by
  refine ⟨by decide, by decide, by decide⟩

/-- An in-memory decoded image as resize_for_web.py sees it: pixel width and
height as stored, the EXIF orientation tag (`none` when absent), and the
remaining EXIF payload (abstract bytes). -/
structure Img where
  width : Nat
  height : Nat
  orientation : Option Nat
  exif : List Nat

/-- `PIL.ImageOps.exif_transpose` (resize_for_web.py line 44): physically
applies the EXIF orientation to the pixel data and deletes the orientation
tag. Orientations 5-8 involve a 90-degree component and swap width and
height; orientations 2-4 flip or rotate 180 degrees and keep the
dimensions; orientation 1 or an unrecognized value leaves the image
untouched (no transposition method applies, tag kept). -/
def exifTranspose (img : Img) : Img :=
  match img.orientation with
  | none => img
  | some o =>
    if o = 5 ∨ o = 6 ∨ o = 7 ∨ o = 8 then
      { width := img.height, height := img.width, orientation := none, exif := img.exif }
    else if o = 2 ∨ o = 3 ∨ o = 4 then
      { width := img.width, height := img.height, orientation := none, exif := img.exif }
    else img

/-- The file written by `img.save(..., quality=quality, optimize=True, exif=b"")`
in resize_for_web.py: pixel dimensions, encoder quality, the optimize flag,
and the saved EXIF block (the orientation tag, if any, lives inside it;
`[]` means no EXIF data at all, matching `exif=b""`). -/
structure Saved where
  width : Nat
  height : Nat
  quality : Nat
  optimize : Bool
  exif : List Nat
  deriving DecidableEq

/-- resize_for_web.py lines 64-69: the new dimension pair when resizing is
needed. `if width > height: new_width = max_dimension;
new_height = int((height / width) * max_dimension)` and symmetrically
otherwise; the float truncation `int(...)` is modelled by exact natural
division. -/
def resizeDims (w h maxDim : Nat) : Nat × Nat :=
  if w > h then (maxDim, h * maxDim / w)
  else (w * maxDim / h, maxDim)

/-- resize_for_web.py lines 37-77, the geometry and save parameters of the
successful path of `resize_for_web`: transpose per EXIF orientation, measure
`width, height` afterwards, compare `max(width, height)` with
`max_dimension`; either re-save unresized or resize then save, both with
the given quality, `optimize=True` and `exif=b""`. -/
def resizeForWeb (img : Img) (maxDim quality : Nat) : Saved :=
  let t := exifTranspose img
  if max t.width t.height ≤ maxDim then
    { width := t.width, height := t.height, quality := quality, optimize := true, exif := [] }
  else
    let d := resizeDims t.width t.height maxDim
    { width := d.1, height := d.2, quality := quality, optimize := true, exif := [] }

/-- The pure geometry resize_for_web.py applies to already-upright
dimensions (lines 56-72): unchanged when the longest side fits, else
`resizeDims`. -/
def webGeometry (w h maxDim : Nat) : Nat × Nat :=
  if max w h ≤ maxDim then (w, h) else resizeDims w h maxDim

/-- C2. When the longest (upright) side strictly exceeds `MAX_DIMENSION`,
the resized longer side is exactly `MAX_DIMENSION`, the shorter side is the
integer truncation of `(shorter / longer) * MAX_DIMENSION`, and that
truncation is within one pixel of the exact proportional value. -/
theorem resize_caps_longest_side (w h : Nat) (hw : 0 < w) (hh : 0 < h)
    (hbig : MAX_DIMENSION < max w h) :
    max (resizeDims w h MAX_DIMENSION).1 (resizeDims w h MAX_DIMENSION).2 = MAX_DIMENSION ∧
    min (resizeDims w h MAX_DIMENSION).1 (resizeDims w h MAX_DIMENSION).2
      = min w h * MAX_DIMENSION / max w h ∧
    ((min w h * MAX_DIMENSION / max w h : Nat) : ℚ)
      ≤ (min w h * MAX_DIMENSION : ℚ) / (max w h) ∧
    (min w h * MAX_DIMENSION : ℚ) / (max w h) - 1
      < ((min w h * MAX_DIMENSION / max w h : Nat) : ℚ) := by
  have hle : ∀ a b : Nat, a ≤ b → 0 < b → a * MAX_DIMENSION / b ≤ MAX_DIMENSION := by
    intro a b hab hb
    calc a * MAX_DIMENSION / b ≤ b * MAX_DIMENSION / b :=
          Nat.div_le_div_right (Nat.mul_le_mul_right _ hab)
      _ = MAX_DIMENSION := Nat.mul_div_cancel_left _ hb
  rcases lt_or_ge h w with hlt | hge
  · have hmax : max w h = w := max_eq_left hlt.le
    have hmin : min w h = h := min_eq_right hlt.le
    have hsle : h * MAX_DIMENSION / w ≤ MAX_DIMENSION := hle h w hlt.le hw
    refine ⟨?_, ?_, ?_, ?_⟩
    · simp [resizeDims, hlt, max_eq_left hsle]
    · simp [resizeDims, hlt, hmax, hmin, min_eq_right hsle]
    · rw [hmax, hmin]
      have hb := natDiv_le_exact (h * MAX_DIMENSION) w
      push_cast at hb
      exact hb
    · rw [hmax, hmin]
      have hb := exact_lt_natDiv_add_one (h * MAX_DIMENSION) w
      push_cast at hb
      exact hb
  · have hnlt : ¬ w > h := not_lt.mpr hge
    have hmax : max w h = h := max_eq_right hge
    have hmin : min w h = w := min_eq_left hge
    have hsle : w * MAX_DIMENSION / h ≤ MAX_DIMENSION := hle w h hge hh
    refine ⟨?_, ?_, ?_, ?_⟩
    · simp [resizeDims, hnlt, max_eq_right hsle]
    · simp [resizeDims, hnlt, hmax, hmin, min_eq_left hsle]
    · rw [hmax, hmin]
      have hb := natDiv_le_exact (w * MAX_DIMENSION) h
      push_cast at hb
      exact hb
    · rw [hmax, hmin]
      have hb := exact_lt_natDiv_add_one (w * MAX_DIMENSION) h
      push_cast at hb
      exact hb

/-- Witness for `resize_caps_longest_side` at a 4000x3000 image:
dimensions become 3000x2250. -/
theorem resize_caps_longest_side_witness :
    max (resizeDims 4000 3000 MAX_DIMENSION).1 (resizeDims 4000 3000 MAX_DIMENSION).2
      = MAX_DIMENSION ∧
    min (resizeDims 4000 3000 MAX_DIMENSION).1 (resizeDims 4000 3000 MAX_DIMENSION).2
      = min 4000 3000 * MAX_DIMENSION / max 4000 3000 ∧
    ((min 4000 3000 * MAX_DIMENSION / max 4000 3000 : Nat) : ℚ)
      ≤ (min 4000 3000 * MAX_DIMENSION : ℚ) / (max 4000 3000) ∧
    (min 4000 3000 * MAX_DIMENSION : ℚ) / (max 4000 3000) - 1
      < ((min 4000 3000 * MAX_DIMENSION / max 4000 3000 : Nat) : ℚ) :=
  resize_caps_longest_side 4000 3000 (by decide) (by decide) (by decide)

/-- C3. When the longest upright side is at most `MAX_DIMENSION`, the web
resizer keeps the pixel dimensions and only re-encodes: quality `QUALITY`,
optimize on, EXIF stripped. -/
theorem small_image_not_resized (img : Img)
    (hsmall : max (exifTranspose img).width (exifTranspose img).height ≤ MAX_DIMENSION) :
    resizeForWeb img MAX_DIMENSION QUALITY =
      { width := (exifTranspose img).width, height := (exifTranspose img).height,
        quality := QUALITY, optimize := true, exif := [] } := by
  simp [resizeForWeb, hsmall]

/-- Witness for `small_image_not_resized` at a 2000x1000 image with no
orientation tag. -/
theorem small_image_not_resized_witness :
    resizeForWeb ⟨2000, 1000, none, []⟩ MAX_DIMENSION QUALITY =
      { width := (exifTranspose ⟨2000, 1000, none, []⟩).width,
        height := (exifTranspose ⟨2000, 1000, none, []⟩).height,
        quality := QUALITY, optimize := true, exif := [] } :=
  small_image_not_resized ⟨2000, 1000, none, []⟩ (by decide)

/-- The web resizer never reads the EXIF payload: its output is the same
whatever bytes accompany the orientation tag. -/
theorem exif_payload_not_read (w h : Nat) (o : Option Nat) (e : List Nat) (m q : Nat) :
    resizeForWeb ⟨w, h, o, e⟩ m q = resizeForWeb ⟨w, h, o, []⟩ m q := by
  cases o with
  | none => simp [resizeForWeb, exifTranspose]
  | some o =>
    by_cases h58 : o = 5 ∨ o = 6 ∨ o = 7 ∨ o = 8
    · simp [resizeForWeb, exifTranspose, h58]
    · by_cases h24 : o = 2 ∨ o = 3 ∨ o = 4
      · simp [resizeForWeb, exifTranspose, h58, h24]
      · simp [resizeForWeb, exifTranspose, h58, h24]

/-- C6. EXIF orientation is applied before any geometry computation: the
saved dimensions are `webGeometry` of the transposed dimensions, and the
saved file carries no EXIF at all (so no orientation tag). In particular a
4000x3000 stored image with orientation tag 6 is saved as 2250 wide by 3000
tall (long side 3000, short side 2250) with empty EXIF. -/
theorem orientation_applied_before_geometry :
    (∀ (img : Img) (maxDim q : Nat),
      ((resizeForWeb img maxDim q).width, (resizeForWeb img maxDim q).height)
        = webGeometry (exifTranspose img).width (exifTranspose img).height maxDim ∧
      (resizeForWeb img maxDim q).exif = []) ∧
    (∀ e : List Nat,
      resizeForWeb ⟨4000, 3000, some 6, e⟩ MAX_DIMENSION QUALITY =
        { width := 2250, height := 3000, quality := QUALITY, optimize := true, exif := [] } ∧
      max (resizeForWeb ⟨4000, 3000, some 6, e⟩ MAX_DIMENSION QUALITY).width
        (resizeForWeb ⟨4000, 3000, some 6, e⟩ MAX_DIMENSION QUALITY).height = 3000 ∧
      min (resizeForWeb ⟨4000, 3000, some 6, e⟩ MAX_DIMENSION QUALITY).width
        (resizeForWeb ⟨4000, 3000, some 6, e⟩ MAX_DIMENSION QUALITY).height = 2250) := by
  constructor
  · intro img maxDim q
    constructor
    · by_cases hsmall : max (exifTranspose img).width (exifTranspose img).height ≤ maxDim
      · simp [resizeForWeb, webGeometry, hsmall]
      · simp [resizeForWeb, webGeometry, hsmall]
    · by_cases hsmall : max (exifTranspose img).width (exifTranspose img).height ≤ maxDim
      · simp [resizeForWeb, hsmall]
      · simp [resizeForWeb, hsmall]
  · intro e
    have he := exif_payload_not_read 4000 3000 (some 6) e MAX_DIMENSION QUALITY
    rw [he]
    refine ⟨by decide, by decide, by decide⟩

/-- Filesystem state seen by generate_thumbs.py `main`: existence flags of
the two directories it `mkdir(exist_ok=True)`s, the sorted JPEG list of the
source directory, the source image contents (abstract bytes as `Nat`), the
thumbs directory as a partial map, a count of file writes, and the console
log. -/
structure TFS where
  imagesDir : Bool
  thumbsDir : Bool
  files : List String
  src : String → Nat
  thumbs : String → Option Nat
  writes : Nat
  log : List String

/-- One iteration of the loop in generate_thumbs.py lines 66-74: if the
same-named thumbnail exists, skip (no staleness or content check);
otherwise generate and write it. `gen` abstracts the decode-resize-encode
of `generate_thumbnail`. -/
def tStep (gen : Nat → Nat) (fs : TFS) (f : String) : TFS :=
  if (fs.thumbs f).isSome then
    { fs with log := fs.log ++ ["skipped " ++ f] }
  else
    { fs with
        thumbs := fun g => if g = f then some (gen (fs.src g)) else fs.thumbs g,
        writes := fs.writes + 1,
        log := fs.log ++ ["generated " ++ f] }

/-- generate_thumbs.py `main` (lines 47-76): create both directories if
absent, then either report that no files were found or run the loop. -/
def thumbsMain (gen : Nat → Nat) (fs : TFS) : TFS :=
  let fs1 : TFS := { fs with imagesDir := true, thumbsDir := true }
  if fs1.files.isEmpty then { fs1 with log := fs1.log ++ ["no files"] }
  else fs1.files.foldl (tStep gen) fs1

theorem tStep_files (gen : Nat → Nat) (fs : TFS) (f : String) :
    (tStep gen fs f).files = fs.files := by
  by_cases hc : (fs.thumbs f).isSome <;> simp [tStep, hc]

theorem tRun_files (gen : Nat → Nat) (l : List String) :
    ∀ fs : TFS, (l.foldl (tStep gen) fs).files = fs.files := by
  induction l with
  | nil => intro fs; rfl
  | cons a t ih => intro fs; rw [List.foldl_cons, ih, tStep_files]

theorem tStep_thumbs_some (gen : Nat → Nat) (fs : TFS) (f g : String) (v : Nat)
    (hg : fs.thumbs g = some v) : (tStep gen fs f).thumbs g = some v := by
  by_cases hc : (fs.thumbs f).isSome
  · simp [tStep, hc, hg]
  · by_cases hgf : g = f
    · subst hgf; rw [hg] at hc; simp at hc
    · simp [tStep, hc, hgf, hg]

theorem tRun_thumbs_some (gen : Nat → Nat) (l : List String) :
    ∀ (fs : TFS) (g : String) (v : Nat), fs.thumbs g = some v →
      (l.foldl (tStep gen) fs).thumbs g = some v := by
  induction l with
  | nil => intro fs g v hg; exact hg
  | cons a t ih =>
    intro fs g v hg
    exact ih (tStep gen fs a) g v (tStep_thumbs_some gen fs a g v hg)

theorem tRun_mem_isSome (gen : Nat → Nat) (l : List String) :
    ∀ fs : TFS, ∀ f ∈ l, ((l.foldl (tStep gen) fs).thumbs f).isSome := by
  induction l with
  | nil => intro fs f hf; cases hf
  | cons a t ih =>
    intro fs f hf
    rw [List.foldl_cons]
    rcases List.mem_cons.mp hf with h | h
    · subst h
      by_cases hc : (fs.thumbs f).isSome
      · obtain ⟨v, hv⟩ := Option.isSome_iff_exists.mp hc
        have h3 := tRun_thumbs_some gen t (tStep gen fs f) f v
          (tStep_thumbs_some gen fs f f v hv)
        simp [h3]
      · have h2 : (tStep gen fs f).thumbs f = some (gen (fs.src f)) := by
          simp [tStep, hc]
        have h3 := tRun_thumbs_some gen t (tStep gen fs f) f _ h2
        simp [h3]
    · exact ih (tStep gen fs a) f h

theorem tRun_no_writes (gen : Nat → Nat) (l : List String) :
    ∀ fs : TFS, (∀ f ∈ l, (fs.thumbs f).isSome) →
      (l.foldl (tStep gen) fs).thumbs = fs.thumbs ∧
      (l.foldl (tStep gen) fs).writes = fs.writes := by
  induction l with
  | nil => intro fs _; exact ⟨rfl, rfl⟩
  | cons a t ih =>
    intro fs hall
    have ha : (fs.thumbs a).isSome := hall a (List.mem_cons_self a t)
    have hstep : tStep gen fs a = { fs with log := fs.log ++ ["skipped " ++ a] } := by
      simp [tStep, ha]
    rw [List.foldl_cons, hstep]
    exact ih _ (fun f hf => hall f (List.mem_cons_of_mem a hf))

theorem thumbsMain_of_empty (gen : Nat → Nat) (fs : TFS) (h : fs.files.isEmpty) :
    thumbsMain gen fs =
      { fs with imagesDir := true, thumbsDir := true, log := fs.log ++ ["no files"] } := by
  simp only [thumbsMain]
  rw [if_pos h]

theorem thumbsMain_of_nonempty (gen : Nat → Nat) (fs : TFS) (h : ¬ fs.files.isEmpty) :
    thumbsMain gen fs =
      fs.files.foldl (tStep gen) { fs with imagesDir := true, thumbsDir := true } := by
  simp only [thumbsMain]
  rw [if_neg h]

/-- C5. Thumbnail generation never overwrites an existing thumbnail, and a
second run over the same inputs performs zero new writes. -/
theorem thumbs_skip_if_exists_idempotent (gen : Nat → Nat) (fs : TFS) :
    (∀ f v, fs.thumbs f = some v → (thumbsMain gen fs).thumbs f = some v) ∧
    (thumbsMain gen (thumbsMain gen fs)).writes = (thumbsMain gen fs).writes := by
  by_cases hempty : fs.files.isEmpty
  · have hm := thumbsMain_of_empty gen fs hempty
    have hm2 := thumbsMain_of_empty gen (thumbsMain gen fs) (by rw [hm]; exact hempty)
    constructor
    · intro f v hv
      rw [hm]; exact hv
    · rw [hm2, hm]
  · have hmain := thumbsMain_of_nonempty gen fs hempty
    constructor
    · intro f v hv
      rw [hmain]
      exact tRun_thumbs_some gen fs.files _ f v hv
    · have hfiles : (thumbsMain gen fs).files = fs.files := by
        rw [hmain, tRun_files]
      have hempty2 : ¬ (thumbsMain gen fs).files.isEmpty := by
        rw [hfiles]; exact hempty
      rw [thumbsMain_of_nonempty gen (thumbsMain gen fs) hempty2]
      have hall : ∀ f ∈ (thumbsMain gen fs).files,
          (({ thumbsMain gen fs with imagesDir := true, thumbsDir := true } : TFS).thumbs f).isSome := by
        intro f hf
        rw [hfiles] at hf
        show ((thumbsMain gen fs).thumbs f).isSome
        rw [hmain]
        exact tRun_mem_isSome gen fs.files _ f hf
      have hres := (tRun_no_writes gen (thumbsMain gen fs).files _ hall).2
      rw [hres]

/-- Witness for `thumbs_skip_if_exists_idempotent` on a concrete state with
one pre-existing thumbnail. -/
def tfs0 : TFS :=
  { imagesDir := true, thumbsDir := true, files := ["a", "b"],
    src := fun _ => 7, thumbs := fun g => if g = "a" then some 5 else none,
    writes := 0, log := [] }

theorem thumbs_skip_if_exists_idempotent_witness :
    (∀ f v, tfs0.thumbs f = some v → (thumbsMain (fun c => c + 1) tfs0).thumbs f = some v) ∧
    (thumbsMain (fun c => c + 1) (thumbsMain (fun c => c + 1) tfs0)).writes =
      (thumbsMain (fun c => c + 1) tfs0).writes :=
  thumbs_skip_if_exists_idempotent (fun c => c + 1) tfs0

/-- Filesystem state seen by resize_for_web.py `main`: existence flags of
the source and backup directories, the sorted JPEG list, the mutable
source-image contents, the backup directory as a partial map, a count of
file writes, and the console log. -/
structure WFS where
  imagesDir : Bool
  backupDir : Bool
  files : List String
  images : String → Nat
  backup : String → Option Nat
  writes : Nat
  log : List String

/-- One iteration of the loop in resize_for_web.py lines 106-113: copy the
current file into the backup directory unless a backup already exists,
then overwrite the original in place with the resized version. `r`
abstracts the decode-resize-encode of `resize_for_web`. -/
def wStep (r : Nat → Nat) (fs : WFS) (f : String) : WFS :=
  let fs1 :=
    if (fs.backup f).isSome then fs
    else
      { fs with
          backup := fun g => if g = f then some (fs.images g) else fs.backup g,
          writes := fs.writes + 1 }
  { fs1 with
      images := fun g => if g = f then r (fs1.images g) else fs1.images g,
      writes := fs1.writes + 1,
      log := fs1.log ++ ["processed " ++ f] }

/-- resize_for_web.py `main` (lines 82-119): return with an error if the
source directory is missing; report and return if no JPEG files were
found (note: before creating the backup directory); otherwise create the
backup directory and run the loop. -/
def webMain (r : Nat → Nat) (fs : WFS) : WFS :=
  if fs.imagesDir = false then { fs with log := fs.log ++ ["error: images dir missing"] }
  else if fs.files.isEmpty then { fs with log := fs.log ++ ["no files"] }
  else
    let fs1 : WFS := { fs with backupDir := true }
    fs1.files.foldl (wStep r) fs1

theorem wStep_files (r : Nat → Nat) (fs : WFS) (f : String) :
    (wStep r fs f).files = fs.files := by
  by_cases hc : (fs.backup f).isSome <;> simp [wStep, hc]

theorem wStep_imagesDir (r : Nat → Nat) (fs : WFS) (f : String) :
    (wStep r fs f).imagesDir = fs.imagesDir := by
  by_cases hc : (fs.backup f).isSome <;> simp [wStep, hc]

theorem wRun_files (r : Nat → Nat) (l : List String) :
    ∀ fs : WFS, (l.foldl (wStep r) fs).files = fs.files := by
  induction l with
  | nil => intro fs; rfl
  | cons a t ih => intro fs; rw [List.foldl_cons, ih, wStep_files]

theorem wRun_imagesDir (r : Nat → Nat) (l : List String) :
    ∀ fs : WFS, (l.foldl (wStep r) fs).imagesDir = fs.imagesDir := by
  induction l with
  | nil => intro fs; rfl
  | cons a t ih => intro fs; rw [List.foldl_cons, ih, wStep_imagesDir]

theorem wStep_backup_some (r : Nat → Nat) (fs : WFS) (f g : String) (v : Nat)
    (hg : fs.backup g = some v) : (wStep r fs f).backup g = some v := by
  by_cases hc : (fs.backup f).isSome
  · simp [wStep, hc, hg]
  · by_cases hgf : g = f
    · subst hgf; rw [hg] at hc; simp at hc
    · simp [wStep, hc, hgf, hg]

theorem wRun_backup_some (r : Nat → Nat) (l : List String) :
    ∀ (fs : WFS) (g : String) (v : Nat), fs.backup g = some v →
      (l.foldl (wStep r) fs).backup g = some v := by
  induction l with
  | nil => intro fs g v hg; exact hg
  | cons a t ih =>
    intro fs g v hg
    exact ih (wStep r fs a) g v (wStep_backup_some r fs a g v hg)

theorem wStep_backup_other (r : Nat → Nat) (fs : WFS) (f g : String) (hgf : g ≠ f) :
    (wStep r fs f).backup g = fs.backup g := by
  by_cases hc : (fs.backup f).isSome <;> simp [wStep, hc, hgf]

theorem wStep_images_other (r : Nat → Nat) (fs : WFS) (f g : String) (hgf : g ≠ f) :
    (wStep r fs f).images g = fs.images g := by
  by_cases hc : (fs.backup f).isSome <;> simp [wStep, hc, hgf]

theorem wRun_backup_mem (r : Nat → Nat) (l : List String) :
    ∀ (fs : WFS) (f : String), f ∈ l → fs.backup f = none →
      (l.foldl (wStep r) fs).backup f = some (fs.images f) := by
  induction l with
  | nil => intro fs f hf; cases hf
  | cons a t ih =>
    intro fs f hf hnone
    rw [List.foldl_cons]
    rcases List.mem_cons.mp hf with h | h
    · subst h
      have h2 : (wStep r fs f).backup f = some (fs.images f) := by
        have hc : ¬ (fs.backup f).isSome := by rw [hnone]; simp
        simp [wStep, hc]
      exact wRun_backup_some r t (wStep r fs f) f (fs.images f) h2
    · by_cases hfa : f = a
      · subst hfa
        have h2 : (wStep r fs f).backup f = some (fs.images f) := by
          have hc : ¬ (fs.backup f).isSome := by rw [hnone]; simp
          simp [wStep, hc]
        exact wRun_backup_some r t (wStep r fs f) f (fs.images f) h2
      · have hb := wStep_backup_other r fs a f hfa
        have hi := wStep_images_other r fs a f hfa
        rw [hnone] at hb
        have := ih (wStep r fs a) f h hb
        rw [this, hi]

theorem wRun_backup_stable (r : Nat → Nat) (l : List String) :
    ∀ fs : WFS, (∀ f ∈ l, (fs.backup f).isSome) →
      ∀ g, (l.foldl (wStep r) fs).backup g = fs.backup g := by
  induction l with
  | nil => intro fs _ g; rfl
  | cons a t ih =>
    intro fs hall g
    have ha : (fs.backup a).isSome := hall a (List.mem_cons_self a t)
    have hstep : (wStep r fs a).backup = fs.backup := by
      simp [wStep, ha]
    rw [List.foldl_cons]
    have htail : ∀ f ∈ t, ((wStep r fs a).backup f).isSome := by
      intro f hf
      rw [hstep]
      exact hall f (List.mem_cons_of_mem a hf)
    rw [ih (wStep r fs a) htail g, hstep]

theorem webMain_of_nonempty (r : Nat → Nat) (fs : WFS)
    (hdir : fs.imagesDir = true) (hne : ¬ fs.files.isEmpty) :
    webMain r fs = fs.files.foldl (wStep r) { fs with backupDir := true } := by
  simp only [webMain, hdir]
  rw [if_neg (by simp), if_neg hne]

theorem webMain_of_empty (r : Nat → Nat) (fs : WFS)
    (hdir : fs.imagesDir = true) (he : fs.files.isEmpty) :
    webMain r fs = { fs with log := fs.log ++ ["no files"] } := by
  simp only [webMain, hdir]
  rw [if_neg (by simp), if_pos he]

/-- C4. Starting from an empty backup directory, every processed file gets
a backup equal to its pre-resize original (the copy is taken before the
in-place overwrite), and a second run never overwrites any existing
backup. -/
theorem backup_before_mutate_never_overwritten (r : Nat → Nat) (fs : WFS)
    (hdir : fs.imagesDir = true) (hnone : ∀ g, fs.backup g = none) :
    (∀ f ∈ fs.files, (webMain r fs).backup f = some (fs.images f)) ∧
    (∀ g, (webMain r (webMain r fs)).backup g = (webMain r fs).backup g) := by
  by_cases hempty : fs.files.isEmpty
  · have hm := webMain_of_empty r fs hdir hempty
    constructor
    · intro f hf
      rw [List.isEmpty_iff.mp hempty] at hf
      cases hf
    · intro g
      have hm2 := webMain_of_empty r (webMain r fs)
        (by rw [hm]; exact hdir) (by rw [hm]; exact hempty)
      rw [hm2, hm]
  · have hm := webMain_of_nonempty r fs hdir hempty
    have hfirst : ∀ f ∈ fs.files, (webMain r fs).backup f = some (fs.images f) := by
      intro f hf
      rw [hm]
      exact wRun_backup_mem r fs.files _ f hf (hnone f)
    refine ⟨hfirst, ?_⟩
    intro g
    have hdir2 : (webMain r fs).imagesDir = true := by
      rw [hm, wRun_imagesDir]
      exact hdir
    have hfiles2 : (webMain r fs).files = fs.files := by
      rw [hm, wRun_files]
    have hne2 : ¬ (webMain r fs).files.isEmpty := by
      rw [hfiles2]; exact hempty
    rw [webMain_of_nonempty r (webMain r fs) hdir2 hne2]
    have hall : ∀ f ∈ (webMain r fs).files,
        (({ webMain r fs with backupDir := true } : WFS).backup f).isSome := by
      intro f hf
      rw [hfiles2] at hf
      show ((webMain r fs).backup f).isSome
      rw [hfirst f hf]
      simp
    rw [wRun_backup_stable r (webMain r fs).files _ hall g]

/-- Concrete state for the C4 witness: one source file, empty backup
directory. -/
def wfs0 : WFS :=
  { imagesDir := true, backupDir := false, files := ["a"],
    images := fun _ => 7, backup := fun _ => none, writes := 0, log := [] }

theorem backup_before_mutate_never_overwritten_witness :
    (∀ f ∈ wfs0.files, (webMain (fun c => c + 1) wfs0).backup f = some (wfs0.images f)) ∧
    (∀ g, (webMain (fun c => c + 1) (webMain (fun c => c + 1) wfs0)).backup g =
      (webMain (fun c => c + 1) wfs0).backup g) :=
  backup_before_mutate_never_overwritten (fun c => c + 1) wfs0 rfl (fun _ => rfl)

/-- Concrete state for C8: the images directory exists but holds no JPEG
files; the backup directory is absent. -/
def wfsNoFiles : WFS :=
  { imagesDir := true, backupDir := false, files := [],
    images := fun _ => 0, backup := fun _ => none, writes := 0, log := [] }

/-- C8 counterexample. With no JPEG files, resize_for_web.py returns at the
`if not image_files` check, which comes before `BACKUP_DIR.mkdir`; an
absent backup directory therefore stays absent, contradicting the claim
that it is still created. -/
theorem backup_dir_not_created_when_no_files :
    wfsNoFiles.backupDir = false ∧ (webMain (fun c => c) wfsNoFiles).backupDir = false :=
  ⟨rfl, rfl⟩

/-- C8 (amended). With no JPEG files, both scripts report that no files
were found and write nothing; the thumbnail generator still creates the
images and thumbs directories if absent, but the web resizer returns
before its `mkdir`, leaving the backup directory as it was. -/
theorem empty_source_dir_no_writes (gen r : Nat → Nat) (tfs : TFS) (wfs : WFS)
    (ht : tfs.files.isEmpty) (hw : wfs.files.isEmpty) (hdir : wfs.imagesDir = true) :
    (thumbsMain gen tfs).imagesDir = true ∧
    (thumbsMain gen tfs).thumbsDir = true ∧
    (thumbsMain gen tfs).writes = tfs.writes ∧
    (thumbsMain gen tfs).thumbs = tfs.thumbs ∧
    (thumbsMain gen tfs).log = tfs.log ++ ["no files"] ∧
    (webMain r wfs).backupDir = wfs.backupDir ∧
    (webMain r wfs).writes = wfs.writes ∧
    (webMain r wfs).backup = wfs.backup ∧
    (webMain r wfs).images = wfs.images ∧
    (webMain r wfs).log = wfs.log ++ ["no files"] := by
  have hm := thumbsMain_of_empty gen tfs ht
  have hw2 := webMain_of_empty r wfs hdir hw
  rw [hm, hw2]
  exact ⟨rfl, rfl, rfl, rfl, rfl, rfl, rfl, rfl, rfl, rfl⟩

/-- Concrete empty-source state for the thumbnail side of the C8 witness. -/
def tfsNoFiles : TFS :=
  { imagesDir := false, thumbsDir := false, files := [],
    src := fun _ => 0, thumbs := fun _ => none, writes := 0, log := [] }

theorem empty_source_dir_no_writes_witness :
    (thumbsMain (fun c => c) tfsNoFiles).imagesDir = true ∧
    (thumbsMain (fun c => c) tfsNoFiles).thumbsDir = true ∧
    (thumbsMain (fun c => c) tfsNoFiles).writes = tfsNoFiles.writes ∧
    (thumbsMain (fun c => c) tfsNoFiles).thumbs = tfsNoFiles.thumbs ∧
    (thumbsMain (fun c => c) tfsNoFiles).log = tfsNoFiles.log ++ ["no files"] ∧
    (webMain (fun c => c) wfsNoFiles).backupDir = wfsNoFiles.backupDir ∧
    (webMain (fun c => c) wfsNoFiles).writes = wfsNoFiles.writes ∧
    (webMain (fun c => c) wfsNoFiles).backup = wfsNoFiles.backup ∧
    (webMain (fun c => c) wfsNoFiles).images = wfsNoFiles.images ∧
    (webMain (fun c => c) wfsNoFiles).log = wfsNoFiles.log ++ ["no files"] :=
  empty_source_dir_no_writes (fun c => c) (fun c => c) tfsNoFiles wfsNoFiles rfl rfl rfl

/-- C9. Missing source directory, asymmetric handling: resize_for_web.py
checks `IMAGES_DIR.exists()` first and returns with only an error line,
creating nothing and writing nothing (the whole state is unchanged except
the log); generate_thumbs.py instead creates both directories via
`mkdir(exist_ok=True)` and proceeds, reporting that no files were found. -/
theorem missing_source_dir_asymmetry (gen r : Nat → Nat) (tfs : TFS) (wfs : WFS)
    (hw : wfs.imagesDir = false) (ht : tfs.imagesDir = false) (htf : tfs.files.isEmpty) :
    webMain r wfs = { wfs with log := wfs.log ++ ["error: images dir missing"] } ∧
    (thumbsMain gen tfs).imagesDir = true ∧
    (thumbsMain gen tfs).thumbsDir = true ∧
    (thumbsMain gen tfs).writes = tfs.writes ∧
    (thumbsMain gen tfs).log = tfs.log ++ ["no files"] := by
  have hm := thumbsMain_of_empty gen tfs htf
  refine ⟨?_, ?_, ?_, ?_, ?_⟩
  · simp [webMain, hw]
  · rw [hm]
  · rw [hm]
  · rw [hm]
  · rw [hm]

/-- Concrete missing-source states for the C9 witness. -/
def wfsNoDir : WFS :=
  { imagesDir := false, backupDir := false, files := [],
    images := fun _ => 0, backup := fun _ => none, writes := 0, log := [] }

def tfsNoDir : TFS :=
  { imagesDir := false, thumbsDir := false, files := [],
    src := fun _ => 0, thumbs := fun _ => none, writes := 0, log := [] }

theorem missing_source_dir_asymmetry_witness :
    webMain (fun c => c) wfsNoDir =
      { wfsNoDir with log := wfsNoDir.log ++ ["error: images dir missing"] } ∧
    (thumbsMain (fun c => c) tfsNoDir).imagesDir = true ∧
    (thumbsMain (fun c => c) tfsNoDir).thumbsDir = true ∧
    (thumbsMain (fun c => c) tfsNoDir).writes = tfsNoDir.writes ∧
    (thumbsMain (fun c => c) tfsNoDir).log = tfsNoDir.log ++ ["no files"] :=
  missing_source_dir_asymmetry (fun c => c) (fun c => c) tfsNoDir wfsNoDir rfl rfl rfl

/-- Per-file outcome of one loop iteration: either a success line or an
error line carrying the filename and the exception message. -/
inductive Outcome where
  | success (name : String)
  | errorLogged (name msg : String)
  deriving DecidableEq

/-- generate_thumbs.py lines 31-45, error flow of `generate_thumbnail`:
the body (decode, width computation, resize, encode) may raise at the
decode or at the resize/encode stage; the `except` clause turns any
exception into a logged error with the filename and the message, never
re-raising. `decoded` is the result of `Image.open` (the width/height
pair on success), `rz` the resize-and-save stage applied to the computed
dimension pair. -/
def generateThumbnail (decoded : Except String (Nat × Nat))
    (rz : Nat × Nat → Except String Unit) (name : String) : Outcome :=
  match decoded with
  | Except.error e => Outcome.errorLogged name e
  | Except.ok (w, h) =>
    match rz (newThumbWidth THUMBNAIL_HEIGHT w h, THUMBNAIL_HEIGHT) with
    | Except.ok _ => Outcome.success name
    | Except.error e => Outcome.errorLogged name e

/-- resize_for_web.py lines 37-80, error flow of `resize_for_web`: decode
may raise, and the save of the computed output may raise; the `except`
clause logs filename and message, never re-raising. -/
def resizeForWebSafe (decoded : Except String Img)
    (encode : Saved → Except String Unit) (name : String) : Outcome :=
  match decoded with
  | Except.error e => Outcome.errorLogged name e
  | Except.ok img =>
    match encode (resizeForWeb img MAX_DIMENSION QUALITY) with
    | Except.ok _ => Outcome.success name
    | Except.error e => Outcome.errorLogged name e

/-- The driving loop of generate_thumbs.py over the sorted file list: one
outcome per file. -/
def thumbsBatch (decode : String → Except String (Nat × Nat))
    (rz : String → Nat × Nat → Except String Unit) (files : List String) : List Outcome :=
  files.map (fun f => generateThumbnail (decode f) (rz f) f)

/-- The driving loop of resize_for_web.py over the sorted file list: one
outcome per file. -/
def webBatch (decode : String → Except String Img)
    (encode : String → Saved → Except String Unit) (files : List String) : List Outcome :=
  files.map (fun f => resizeForWebSafe (decode f) (encode f) f)

/-- C7. In both pipelines every exception is caught per file: each file of
the batch yields exactly one outcome, independent of the other files (so a
failing file never aborts the batch), and a failure at the decode or
resize/encode stage is logged with the filename and the underlying
message. -/
theorem per_file_errors_do_not_abort :
    (∀ (decode : String → Except String (Nat × Nat))
       (rz : String → Nat × Nat → Except String Unit) (files : List String) (i : Nat),
      (thumbsBatch decode rz files).length = files.length ∧
      (thumbsBatch decode rz files)[i]? =
        (files[i]?).map (fun f => generateThumbnail (decode f) (rz f) f)) ∧
    (∀ (name e : String) (rz : Nat × Nat → Except String Unit),
      generateThumbnail (Except.error e) rz name = Outcome.errorLogged name e) ∧
    (∀ (name e : String) (w h : Nat),
      generateThumbnail (Except.ok (w, h)) (fun _ => Except.error e) name =
        Outcome.errorLogged name e) ∧
    (∀ (decode : String → Except String Img)
       (encode : String → Saved → Except String Unit) (files : List String) (i : Nat),
      (webBatch decode encode files).length = files.length ∧
      (webBatch decode encode files)[i]? =
        (files[i]?).map (fun f => resizeForWebSafe (decode f) (encode f) f)) ∧
    (∀ (name e : String) (encode : Saved → Except String Unit),
      resizeForWebSafe (Except.error e) encode name = Outcome.errorLogged name e) ∧
    (∀ (name e : String) (img : Img),
      resizeForWebSafe (Except.ok img) (fun _ => Except.error e) name =
        Outcome.errorLogged name e) := by
  refine ⟨?_, ?_, ?_, ?_, ?_, ?_⟩
  · intro decode rz files i
    exact ⟨by simp [thumbsBatch], by simp [thumbsBatch]⟩
  · intro name e rz; rfl
  · intro name e w h; rfl
  · intro decode encode files i
    exact ⟨by simp [webBatch], by simp [webBatch]⟩
  · intro name e encode; rfl
  · intro name e img; rfl

/-- C10. For a source image whose width/height ratio is strictly below
1/250 (that is, `250 * w < h`), `generate_thumbnail` computes a new width
of 0 by truncation and passes `(0, 250)` to the resize call with no guard;
if the library then fails, the per-file handler logs the error instead of
propagating it. -/
theorem extremely_tall_image_zero_width (w h : Nat) (htall : THUMBNAIL_HEIGHT * w < h) :
    newThumbWidth THUMBNAIL_HEIGHT w h = 0 ∧
    (∀ (rz : Nat × Nat → Except String Unit) (name : String),
      generateThumbnail (Except.ok (w, h)) rz name =
        match rz (0, THUMBNAIL_HEIGHT) with
        | Except.ok _ => Outcome.success name
        | Except.error e => Outcome.errorLogged name e) ∧
    (∀ (name e : String),
      generateThumbnail (Except.ok (w, h)) (fun _ => Except.error e) name =
        Outcome.errorLogged name e) := by
  have h0 : newThumbWidth THUMBNAIL_HEIGHT w h = 0 := Nat.div_eq_of_lt htall
  refine ⟨h0, ?_, ?_⟩
  · intro rz name
    simp only [generateThumbnail, h0]
  · intro name e; rfl

/-- Witness for `extremely_tall_image_zero_width` at a 1x251 source image. -/
theorem extremely_tall_image_zero_width_witness :
    newThumbWidth THUMBNAIL_HEIGHT 1 251 = 0 ∧
    (∀ (rz : Nat × Nat → Except String Unit) (name : String),
      generateThumbnail (Except.ok (1, 251)) rz name =
        match rz (0, THUMBNAIL_HEIGHT) with
        | Except.ok _ => Outcome.success name
        | Except.error e => Outcome.errorLogged name e) ∧
    (∀ (name e : String),
      generateThumbnail (Except.ok (1, 251)) (fun _ => Except.error e) name =
        Outcome.errorLogged name e) :=
  extremely_tall_image_zero_width 1 251 (by decide)

end PhotoSite
